import Mathlib

/-!
Verification of the Google Cloud Trace exporter package
(`opentelemetry-cloud-trace-exporter`): a shallow embedding of
`src/transform.ts` and `src/trace.ts` together with theorems about the
span transformer and the export pipeline.

JavaScript objects are modelled as association lists with unique keys
(`JsObj`), `Object.assign` as a left fold of single-key insertion, and
attribute values as a tagged union (`JsValue`) whose `other` constructor
stands for every value whose `typeof` is none of `number`, `boolean`,
`string`.  Protocol-buffer messages become structures; message-typed
fields that the transformer may or may not set are `Option`-valued so
that presence and absence of a field are distinguishable.
-/

namespace GCTrace

/-- A JavaScript attribute value as seen by the transformer: the
JS numbers are modelled as exact rationals, and `other` covers every
value of unsupported `typeof` (objects, arrays, undefined, ...). -/
inductive JsValue where
  | str (s : String)
  | num (q : Rat)
  | bool (b : Bool)
  | other
deriving DecidableEq, Repr

/-- A JavaScript object: an association list of key/value pairs.
Objects built by the program have pairwise distinct keys. -/
abbrev JsObj := List (String × JsValue)

/-- Assignment of a single property `k := v` to a JS object: if the key
exists its value is replaced in place (insertion order kept), otherwise
the property is appended. -/
def setKey (o : JsObj) (k : String) (v : JsValue) : JsObj :=
  if o.any (fun p => p.1 = k) then
    o.map (fun p => if p.1 = k then (k, v) else p)
  else
    o ++ [(k, v)]

/-- Embeds `Object.assign(dst, src)`: copy every own property of `src` onto
`dst`, in source order, later values overwriting earlier ones. -/
def objAssign (dst src : JsObj) : JsObj :=
  src.foldl (fun acc kv => setKey acc kv.1 kv.2) dst

/-- First-`some` choice on options (the precedence combinator used to
state the merge theorems). -/
def firstSome {V : Type} (a b : Option V) : Option V :=
  match a with
  | some v => some v
  | none => b

/-- The `@opentelemetry/resources` type `Resource`: carries a label mapping. -/
structure Resource where
  labels : JsObj
deriving DecidableEq, Repr

/-- Embeds `Resource.empty()`: a resource with no labels. -/
def Resource.empty : Resource := ⟨[]⟩

/-- Message `cloudtracev2.TruncatableString`: the wire container for a string;
the transformer passes the value through unmodified. -/
structure TruncatableString where
  value : String
deriving DecidableEq, Repr

/-- Message `cloudtracev2.AttributeValue`: a proto message with three optional
fields; the transformer sets exactly one of them (or, for the empty
message, none). -/
structure AttributeValue where
  intValue : Option Int := none
  boolValue : Option Bool := none
  stringValue : Option TruncatableString := none
deriving DecidableEq, Repr

/-- Message `protobuf.Timestamp`. -/
structure Timestamp where
  seconds : Nat
  nanos : Nat
deriving DecidableEq, Repr

/-- Message `protobuf.BoolValue`. -/
structure BoolValue where
  value : Bool
deriving DecidableEq, Repr

/-- Message `rpc.Status`; an absent message falls back to proto defaults, kept
as an `Option` on the message field. -/
structure RpcStatus where
  code : Nat
  message : Option String := none
deriving DecidableEq, Repr

/-- Message `cloudtracev2.Span.Attributes`: the attribute map plus the count of
dropped attributes. -/
structure WireAttributes where
  attributeMap : List (String × AttributeValue)
  droppedAttributesCount : Nat
deriving DecidableEq, Repr

/-- Message `cloudtracev2.Span.Link`. -/
structure WireLink where
  traceId : String
  spanId : String
  attributes : WireAttributes
deriving DecidableEq, Repr

/-- Message `cloudtracev2.Span.Links`: a message wrapping the list of links. -/
structure Links where
  link : List WireLink
deriving DecidableEq, Repr

/-- Message `cloudtracev2.Span.TimeEvent.Annotation`. -/
structure Annotation where
  description : TruncatableString
  attributes : WireAttributes
deriving DecidableEq, Repr

/-- Message `cloudtracev2.Span.TimeEvent`. -/
structure TimeEvent where
  time : Timestamp
  annotation : Annotation
deriving DecidableEq, Repr

/-- Message `cloudtracev2.Span.TimeEvents`: a message wrapping the event list. -/
structure TimeEvents where
  timeEvent : List TimeEvent
deriving DecidableEq, Repr

/-- The output `cloudtracev2.Span` message.  Message-typed fields that
could in principle be absent on the wire are `Option`-valued; scalar
fields absent from the `create` call default as in protobufjs
(`parentSpanId` to the empty string). -/
structure WireSpan where
  name : String
  spanId : String
  parentSpanId : String := ""
  displayName : TruncatableString
  startTime : Timestamp
  endTime : Timestamp
  attributes : Option WireAttributes := none
  links : Option Links := none
  timeEvents : Option TimeEvents := none
  sameProcessAsParentSpan : Option BoolValue := none
  status : RpcStatus
deriving DecidableEq, Repr

/-- Input `SpanContext`: the SDK type leaves `isRemote` optional. -/
structure SpanContext where
  traceId : String
  spanId : String
  isRemote : Option Bool := none
deriving DecidableEq, Repr

/-- Input `ot.Link`: foreign span identity plus optional attributes. -/
structure OtLink where
  traceId : String
  spanId : String
  attributes : Option JsObj := none
deriving DecidableEq, Repr

/-- Input `ot.TimedEvent`. -/
structure OtTimedEvent where
  name : String
  time : Nat × Nat
  attributes : Option JsObj := none
deriving DecidableEq, Repr

/-- Input `ot.Status`. -/
structure OtStatus where
  code : Nat
  message : Option String := none
deriving DecidableEq, Repr

/-- Input `ReadableSpan` (the fields `transform.ts` reads). -/
structure ReadableSpan where
  name : String
  spanContext : SpanContext
  parentSpanId : Option String := none
  startTime : Nat × Nat
  endTime : Nat × Nat
  status : OtStatus
  attributes : JsObj := []
  links : List OtLink := []
  events : List OtTimedEvent := []
  resource : Resource := Resource.empty
deriving DecidableEq, Repr

/-- The fixed agent label key `g.co/agent`. -/
def AGENT_LABEL_KEY : String := "g.co/agent"

/-- The agent label value; built in the source from the core and
exporter version strings, whose exact values are irrelevant here. -/
def AGENT_LABEL_VALUE : String :=
  "opentelemetry-js CORE_VERSION; google-cloud-trace-exporter VERSION"

/-- ECMAScript `Math.round`: the nearest integer, ties rounding toward
positive infinity; on exact rationals this is `⌊q + 1/2⌋`. -/
def jsMathRound (q : Rat) : Int := ⌊q + 1 / 2⌋

/-- Embeds `stringToTruncatableString`. -/
def stringToTruncatableString (value : String) : TruncatableString :=
  ⟨value⟩

/-- Embeds `valueToAttributeValue`: switch on `typeof`, setting the one
matching field of a fresh `AttributeValue` message; the `other` case is
unreachable from the program (its callers filter it out first) and
leaves the message empty, as a fall-through of the `switch` would. -/
def valueToAttributeValue : JsValue → AttributeValue
  | .num q => { intValue := some (jsMathRound q) }
  | .bool b => { boolValue := some b }
  | .str s => { stringValue := some (stringToTruncatableString s) }
  | .other => {}

/-- Is the value of a supported scalar `typeof`
(`number`/`boolean`/`string`)? -/
def isSupported : JsValue → Bool
  | .num _ => true
  | .bool _ => true
  | .str _ => true
  | .other => false

/-- Embeds `transformAttributeValues`: keep the entries whose value has a
supported scalar type, converting each; drop the rest. -/
def transformAttributeValues (attributes : JsObj) :
    List (String × AttributeValue) :=
  attributes.filterMap (fun kv =>
    if isSupported kv.2 then some (kv.1, valueToAttributeValue kv.2)
    else none)

/-- The `Object.assign({}, requestAttributes, serviceAttributes,
resource.labels)` merge inside `transformAttributes`. -/
def mergedAttributes (requestAttributes serviceAttributes : JsObj)
    (resource : Resource) : JsObj :=
  objAssign (objAssign (objAssign [] requestAttributes) serviceAttributes)
    resource.labels

/-- Embeds `transformAttributes`: merge the three sources, convert the
supported values, and count the dropped keys. -/
def transformAttributes (requestAttributes : JsObj := [])
    (serviceAttributes : JsObj := [])
    (resource : Resource := Resource.empty) : WireAttributes :=
  let attributes := mergedAttributes requestAttributes serviceAttributes
    resource
  let attributeMap := transformAttributeValues attributes
  { attributeMap
    droppedAttributesCount := attributes.length - attributeMap.length }

/-- Embeds `transformBool`. -/
def transformBool (value : Bool) : BoolValue := ⟨value⟩

/-- Embeds `transformTime`. -/
def transformTime (time : Nat × Nat) : Timestamp :=
  { seconds := time.1, nanos := time.2 }

/-- Embeds `transformStatus`. -/
def transformStatus (status : OtStatus) : RpcStatus :=
  { code := status.code, message := status.message }

/-- Embeds `transformLink`: link attributes go through `transformAttributes`
with the service and resource arguments defaulted. -/
def transformLink (link : OtLink) : WireLink :=
  { attributes := transformAttributes (link.attributes.getD [])
    spanId := link.spanId
    traceId := link.traceId }

/-- Embeds `transformLinks`: always produces a `Links` message, wrapping the
(possibly empty) mapped list. -/
def transformLinks (links : List OtLink) : Links :=
  ⟨links.map transformLink⟩

/-- Embeds `transformTimeEvent`. -/
def transformTimeEvent (event : OtTimedEvent) : TimeEvent :=
  { time := transformTime event.time
    annotation :=
      { attributes := transformAttributes (event.attributes.getD [])
        description := stringToTruncatableString event.name } }

/-- Embeds `transformTimeEvents`: always produces a `TimeEvents` message,
wrapping the (possibly empty) mapped list. -/
def transformTimeEvents (events : List OtTimedEvent) : TimeEvents :=
  ⟨events.map transformTimeEvent⟩

/-- JavaScript `!x` on a possibly-undefined boolean: `!undefined` is
`true`. -/
def jsNotOpt : Option Bool → Bool
  | some b => !b
  | none => true

/-- The service-level attributes the transformer injects into every
span: the project id and the agent label. -/
def serviceAttributes (projectId : String) : JsObj :=
  [("project_id", JsValue.str projectId),
   (AGENT_LABEL_KEY, JsValue.str AGENT_LABEL_VALUE)]

/-- Embeds `getReadableSpanTransformer`: the span → wire-span mapping for a
fixed project id. -/
def getReadableSpanTransformer (projectId : String)
    (span : ReadableSpan) : WireSpan :=
  let attributes := transformAttributes span.attributes
    (serviceAttributes projectId) span.resource
  { attributes := some attributes
    displayName := stringToTruncatableString span.name
    links := some (transformLinks span.links)
    endTime := transformTime span.endTime
    startTime := transformTime span.startTime
    name := "projects/" ++ projectId ++ "/traces/"
      ++ span.spanContext.traceId ++ "/spans/" ++ span.spanContext.spanId
    spanId := span.spanContext.spanId
    sameProcessAsParentSpan :=
      some (transformBool (jsNotOpt span.spanContext.isRemote))
    status := transformStatus span.status
    timeEvents := some (transformTimeEvents span.events)
    parentSpanId :=
      match span.parentSpanId with
      | some p => if p = "" then "" else p
      | none => "" }

/-! ## The exporter (`trace.ts`)

`TraceExporter` is modelled as an explicit state: the (possibly still
pending) project-id resolution and the lazily cached RPC client.  The
outcomes of the two external effects an export call can trigger — the
client construction (`_getClient`) and the batched write RPC — are
passed in as oracle inputs of each call. -/

/-- Enum `ExportResult` from `@opentelemetry/base`. -/
inductive ExportResult where
  | success
  | failedRetryable
  | failedNotRetryable
deriving DecidableEq, Repr

/-- The `_projectId` field: either the still-unawaited promise (with the
value it will settle to; a failed resolution settles to `none` because
the `catch` in the constructor swallows the error) or the settled value.
`some ""` stands for a resolution that yielded the empty string. -/
inductive ProjectIdState where
  | pending (result : Option String)
  | resolved (result : Option String)
deriving DecidableEq, Repr

/-- Awaiting the project id: the value the state settles to. -/
def ProjectIdState.awaited : ProjectIdState → Option String
  | .pending r => r
  | .resolved r => r

/-- JavaScript falsiness of `string | void`: `undefined` and the empty
string are falsy. -/
def jsFalsyStr : Option String → Bool
  | none => true
  | some s => s = ""

/-- The RPC client is opaque to this model; only its presence matters. -/
abbrev TraceService := Unit

/-- The mutable fields of a `TraceExporter` instance. -/
structure ExporterState where
  projectId : ProjectIdState
  traceServiceClient : Option TraceService := none
deriving DecidableEq, Repr

/-- Message `cloudtracev2.BatchWriteSpansRequest`. -/
structure BatchWriteSpansRequest where
  name : String
  spans : List WireSpan
deriving DecidableEq, Repr

/-- Embeds `_batchWriteSpans`: if no client is cached, try to build one — a
construction failure resolves non-retryable and leaves the client
uncached; with a client, the batched write resolves retryable on an RPC
error and success otherwise.  `buildOk` is the oracle for whether
`_getClient` succeeds, `rpcError` for whether the write reports an
error. -/
def batchWriteSpans (s : ExporterState) (buildOk : Bool)
    (rpcError : Bool) : ExportResult × ExporterState :=
  match s.traceServiceClient with
  | none =>
    if buildOk then
      let sReady := { s with traceServiceClient := some () }
      (if rpcError then .failedRetryable else .success, sReady)
    else
      (.failedNotRetryable, s)
  | some _ =>
    (if rpcError then .failedRetryable else .success, s)

/-- Embeds `TraceExporter.export`: await the project id if still pending; on a
falsy project id report non-retryable failure without building any
request; otherwise build the batched request from the transformed spans
and run `_batchWriteSpans`.  Returns the callback result, the new
exporter state, and the request that was constructed (if any). -/
def exportSpans (s : ExporterState) (spans : List ReadableSpan)
    (buildOk : Bool) (rpcError : Bool) :
    ExportResult × ExporterState × Option BatchWriteSpansRequest :=
  let pid := s.projectId.awaited
  let sAwaited : ExporterState := { s with projectId := .resolved pid }
  if jsFalsyStr pid then
    (.failedNotRetryable, sAwaited, none)
  else
    let p := pid.getD ""
    let request : BatchWriteSpansRequest :=
      { name := "projects/" ++ p
        spans := spans.map (getReadableSpanTransformer p) }
    let out := batchWriteSpans sAwaited buildOk rpcError
    (out.1, out.2, some request)

/-- One oracle record per export call in a call sequence. -/
structure ExportCall where
  spans : List ReadableSpan
  buildOk : Bool
  rpcError : Bool

/-- Run a sequence of export calls on one exporter instance, collecting
the callback results. -/
def exportSeq (s : ExporterState) :
    List ExportCall → List ExportResult × ExporterState
  | [] => ([], s)
  | c :: rest =>
    let out := exportSpans s c.spans c.buildOk c.rpcError
    let tail := exportSeq out.2.1 rest
    (out.1 :: tail.1, tail.2)

/-! ## Association-list lemmas for the JS object model -/

theorem lookup_nil {V : Type} (q : String) :
    (([] : List (String × V)).lookup q) = none := rfl

theorem lookup_cons {V : Type} (kv : String × V) (t : List (String × V))
    (q : String) :
    ((kv :: t).lookup q)
      = if q = kv.1 then some kv.2 else t.lookup q := by
  obtain ⟨k, v⟩ := kv
  by_cases h : q = k
  · subst h; simp [List.lookup]
  · simp [List.lookup, beq_false_of_ne h, h]

theorem lookup_append (a b : JsObj) (q : String) :
    ((a ++ b).lookup q) = firstSome (a.lookup q) (b.lookup q) := by
  induction a with
  | nil => simp [lookup_nil, firstSome]
  | cons hd tl ih =>
    by_cases h : q = hd.1 <;>
      simp [List.cons_append, lookup_cons, h, firstSome, ih]

theorem lookup_eq_none_of_not_keyMem (o : JsObj) (q : String)
    (h : o.any (fun p => p.1 = q) = false) : o.lookup q = none := by
  induction o with
  | nil => rfl
  | cons hd tl ih =>
    rw [List.any_cons, Bool.or_eq_false_iff] at h
    have hq : ¬ q = hd.1 := by
      intro hqe
      rw [hqe] at h
      simp at h
    rw [lookup_cons, if_neg hq]
    exact ih h.2

theorem lookup_map_overwrite_ne (o : JsObj) (k : String) (v : JsValue)
    (q : String) (hq : q ≠ k) :
    ((o.map (fun p => if p.1 = k then (k, v) else p)).lookup q)
      = o.lookup q := by
  induction o with
  | nil => rfl
  | cons hd tl ih =>
    rw [List.map_cons, lookup_cons, lookup_cons]
    by_cases hk : hd.1 = k
    · rw [if_pos hk]
      have h1 : ¬ q = (k, v).1 := hq
      have h2 : ¬ q = hd.1 := fun hc => hq (hc.trans hk)
      rw [if_neg h1, if_neg h2, ih]
    · rw [if_neg hk, ih]

theorem lookup_map_overwrite_mem (o : JsObj) (k : String) (v : JsValue)
    (h : o.any (fun p => p.1 = k) = true) :
    ((o.map (fun p => if p.1 = k then (k, v) else p)).lookup k)
      = some v := by
  induction o with
  | nil => simp at h
  | cons hd tl ih =>
    rw [List.map_cons, lookup_cons]
    by_cases hk : hd.1 = k
    · rw [if_pos hk]; simp
    · rw [if_neg hk]
      have h2 : ¬ k = (hd.1, hd.2).1 := fun hc => hk hc.symm
      rw [List.any_cons, Bool.or_eq_true_iff] at h
      rcases h with h | h
      · exact absurd (of_decide_eq_true h) hk
      · simp only [h2, if_false]
        exact ih h

/-- Looking a key up after a single-property assignment: the assigned
key yields the new value, every other key is untouched. -/
theorem lookup_setKey (o : JsObj) (k : String) (v : JsValue)
    (q : String) :
    (setKey o k v).lookup q = if q = k then some v else o.lookup q := by
  unfold setKey
  by_cases hmem : o.any (fun p => p.1 = k) = true
  · simp only [hmem, if_true]
    by_cases hq : q = k
    · subst hq
      simp only [if_pos rfl]
      exact lookup_map_overwrite_mem o q v hmem
    · simp [hq, lookup_map_overwrite_ne o k v q hq]
  · simp only [Bool.not_eq_true] at hmem
    simp only [hmem, Bool.false_eq_true, if_false]
    rw [lookup_append]
    by_cases hq : q = k
    · subst hq
      simp [lookup_eq_none_of_not_keyMem o q hmem, lookup_cons,
        firstSome]
    · simp only [lookup_cons, hq, if_false, lookup_nil]
      cases o.lookup q <;> simp [firstSome, hq]

/-- Looking a key up after `Object.assign(dst, src)` (for `src` with
pairwise distinct keys): a key of `src` yields its `src` value,
every other key falls through to `dst`. -/
theorem lookup_objAssign (dst src : JsObj) (q : String)
    (h : (src.map Prod.fst).Nodup) :
    (objAssign dst src).lookup q
      = firstSome (src.lookup q) (dst.lookup q) := by
  induction src generalizing dst with
  | nil => simp [objAssign, lookup_nil, firstSome]
  | cons hd tl ih =>
    simp only [List.map_cons, List.nodup_cons] at h
    have step : objAssign dst (hd :: tl)
        = objAssign (setKey dst hd.1 hd.2) tl := rfl
    rw [step, ih _ h.2]
    by_cases hq : q = hd.1
    · subst hq
      have htl : tl.lookup hd.1 = none := by
        apply lookup_eq_none_of_not_keyMem
        by_contra hc
        simp only [Bool.not_eq_false, List.any_eq_true] at hc
        rcases hc with ⟨p, hp, hpk⟩
        exact h.1 (by
          simp only [decide_eq_true_eq] at hpk
          rw [← hpk]
          exact List.mem_map_of_mem Prod.fst hp)
      simp [htl, lookup_cons, lookup_setKey, firstSome]
    · simp [lookup_cons, hq, lookup_setKey, firstSome]

theorem map_fst_overwrite (o : JsObj) (k : String) (v : JsValue) :
    ((o.map (fun p => if p.1 = k then (k, v) else p)).map Prod.fst)
      = o.map Prod.fst := by
  induction o with
  | nil => rfl
  | cons hd tl ih =>
    rw [List.map_cons, List.map_cons, List.map_cons, ih]
    by_cases h : hd.1 = k
    · rw [if_pos h]; simp [h]
    · rw [if_neg h]

/-- A single-property assignment keeps the keys pairwise distinct. -/
theorem nodupKeys_setKey (o : JsObj) (k : String) (v : JsValue)
    (h : (o.map Prod.fst).Nodup) :
    ((setKey o k v).map Prod.fst).Nodup := by
  unfold setKey
  by_cases hmem : o.any (fun p => p.1 = k) = true
  · simp only [hmem, if_true]
    rw [map_fst_overwrite]
    exact h
  · simp only [Bool.not_eq_true] at hmem
    simp only [hmem, Bool.false_eq_true, if_false]
    rw [List.map_append]
    refine List.Nodup.append h (List.nodup_singleton k) ?_
    intro a ha hb
    simp only [List.map_cons, List.map_nil, List.mem_singleton] at hb
    subst hb
    rcases List.mem_map.1 ha with ⟨p, hp, hpk⟩
    have hc : o.any (fun p => p.1 = a) = true :=
      List.any_eq_true.2 ⟨p, hp, by simp [hpk]⟩
    rw [hc] at hmem
    cases hmem

/-- Assignment via `Object.assign` keeps the keys of the target pairwise distinct. -/
theorem nodupKeys_objAssign (dst src : JsObj)
    (h : (dst.map Prod.fst).Nodup) :
    ((objAssign dst src).map Prod.fst).Nodup := by
  induction src generalizing dst with
  | nil => exact h
  | cons hd tl ih => exact ih _ (nodupKeys_setKey dst hd.1 hd.2 h)

/-- The merged attribute object always has pairwise distinct keys. -/
theorem nodupKeys_merged (req svc : JsObj) (res : Resource) :
    ((mergedAttributes req svc res).map Prod.fst).Nodup :=
  nodupKeys_objAssign _ _
    (nodupKeys_objAssign _ _
      (nodupKeys_objAssign _ _ List.nodup_nil))

/-- The map `transformAttributeValues` is the conversion of exactly the entries
with supported scalar values, in order. -/
theorem transformAttributeValues_eq (o : JsObj) :
    transformAttributeValues o
      = (o.filter (fun kv => isSupported kv.2)).map
          (fun kv => (kv.1, valueToAttributeValue kv.2)) := by
  induction o with
  | nil => rfl
  | cons hd tl ih =>
    by_cases h : isSupported hd.2 = true <;>
      simp [transformAttributeValues, List.filterMap_cons,
        List.filter_cons, h] <;>
      simpa [transformAttributeValues] using ih

/-- A key bound to a supported value survives into the converted map
with the converted value. -/
theorem lookup_transformAttributeValues (o : JsObj) (q : String)
    (v : JsValue) (h : o.lookup q = some v)
    (hs : isSupported v = true) :
    (transformAttributeValues o).lookup q
      = some (valueToAttributeValue v) := by
  induction o with
  | nil => rw [lookup_nil] at h; cases h
  | cons hd tl ih =>
    rw [lookup_cons] at h
    by_cases hq : q = hd.1
    · rw [if_pos hq] at h
      have hv : v = hd.2 := by
        injection h with h2
        exact h2.symm
      subst hv
      simp [transformAttributeValues, List.filterMap_cons, hs,
        lookup_cons, hq]
    · rw [if_neg hq] at h
      have ihr := ih h
      by_cases hsup : isSupported hd.2 = true
      · simpa [transformAttributeValues, List.filterMap_cons, hsup,
          lookup_cons, hq] using ihr
      · simpa [transformAttributeValues, List.filterMap_cons,
          hsup] using ihr

/-! ## Claim theorems -/

/-- C1: for every span transformed at export time, the merged attribute
map obeys the precedence order request (span) attributes < service-level
agent labels < resource labels: on a key collision the value of the
later (higher-precedence) source is the one retained. -/
theorem attribute_merge_precedence (projectId : String)
    (span : ReadableSpan) (q : String)
    (hreq : (span.attributes.map Prod.fst).Nodup)
    (hres : (span.resource.labels.map Prod.fst).Nodup) :
    (mergedAttributes span.attributes (serviceAttributes projectId)
        span.resource).lookup q
      = firstSome (span.resource.labels.lookup q)
          (firstSome ((serviceAttributes projectId).lookup q)
            (span.attributes.lookup q)) := by
  unfold mergedAttributes
  have hsvc : (((serviceAttributes projectId).map Prod.fst)).Nodup := by
    simp [serviceAttributes, AGENT_LABEL_KEY]
  rw [lookup_objAssign _ _ _ hres, lookup_objAssign _ _ _ hsvc,
    lookup_objAssign _ _ _ hreq, lookup_nil]
  cases span.resource.labels.lookup q <;>
    cases (serviceAttributes projectId).lookup q <;>
    cases span.attributes.lookup q <;> simp [firstSome]

/-- Witness for C1 at a concrete colliding key: the span attribute,
agent label and resource label all bind `k`; the resource value wins,
then the service value, then the span value. -/
theorem attribute_merge_precedence_witness :
    (mergedAttributes [("k", JsValue.str "span")]
        (serviceAttributes "pid")
        ⟨[("k", JsValue.str "res")]⟩).lookup "k"
      = firstSome (((⟨[("k", JsValue.str "res")]⟩ : Resource)).labels.lookup "k")
          (firstSome ((serviceAttributes "pid").lookup "k")
            ([("k", JsValue.str "span")].lookup "k")) :=
  attribute_merge_precedence "pid"
    { name := "s"
      spanContext := { traceId := "t", spanId := "i" }
      startTime := (0, 0), endTime := (0, 0)
      status := { code := 0 }
      attributes := [("k", JsValue.str "span")]
      resource := ⟨[("k", JsValue.str "res")]⟩ } "k"
    (by decide) (by decide)

/-- C2 is false on the code: resource labels are assigned last, so on a
colliding key the resource value — not the span value — is retained. -/
theorem resource_lowest_precedence_counterexample :
    (mergedAttributes [("k", JsValue.str "span")] []
        ⟨[("k", JsValue.str "res")]⟩).lookup "k"
      = some (JsValue.str "res")
    ∧ (mergedAttributes [("k", JsValue.str "span")] []
        ⟨[("k", JsValue.str "res")]⟩).lookup "k"
      ≠ some (JsValue.str "span") := by
  decide

/-- C2 amended: the resource labels are merged into every span's
attributes with highest precedence — a key bound in the resource labels
retains the resource value in the merged map, whatever the request
attributes or the agent label bind it to. -/
theorem resource_labels_highest_precedence (req svc : JsObj)
    (res : Resource) (q : String) (v : JsValue)
    (hres : (res.labels.map Prod.fst).Nodup)
    (h : res.labels.lookup q = some v) :
    (mergedAttributes req svc res).lookup q = some v := by
  unfold mergedAttributes
  rw [lookup_objAssign _ _ _ hres, h]
  rfl

/-- Witness for the amended C2 at a concrete colliding key. -/
theorem resource_labels_highest_precedence_witness :
    (mergedAttributes [("k", JsValue.str "span")]
        [("k", JsValue.str "svc")]
        ⟨[("k", JsValue.str "res")]⟩).lookup "k"
      = some (JsValue.str "res") :=
  resource_labels_highest_precedence [("k", JsValue.str "span")]
    [("k", JsValue.str "svc")] ⟨[("k", JsValue.str "res")]⟩ "k"
    (JsValue.str "res") (by decide) (by decide)

/-- C3: for every attribute mapping handed to the transformer, the
dropped-attribute count equals the number of merged keys minus the
number of keys with supported scalar values; the output map holds
exactly the keys with supported values (so each unsupported key is
excluded and adds exactly one to the count); the merged keys are
pairwise distinct, so list length is key count. -/
theorem dropped_attributes_count (req svc : JsObj) (res : Resource) :
    (transformAttributes req svc res).droppedAttributesCount
        = (mergedAttributes req svc res).length
          - ((mergedAttributes req svc res).filter
              (fun kv => isSupported kv.2)).length
    ∧ (transformAttributes req svc res).attributeMap.map Prod.fst
        = ((mergedAttributes req svc res).filter
            (fun kv => isSupported kv.2)).map Prod.fst
    ∧ ((mergedAttributes req svc res).map Prod.fst).Nodup := by
  refine ⟨?_, ?_, nodupKeys_merged req svc res⟩
  · show (mergedAttributes req svc res).length
        - (transformAttributeValues (mergedAttributes req svc res)).length
        = _
    rw [transformAttributeValues_eq, List.length_map]
  · show (transformAttributeValues (mergedAttributes req svc res)).map
        Prod.fst = _
    rw [transformAttributeValues_eq, List.map_map]
    rfl

/-- C4: with a usable project id, the outcome of each export call is exactly
one of three: non-retryable failure when no client is cached and
construction fails, retryable failure when the batched write reports an
error, success when it does not — no other outcome is possible. -/
theorem export_outcome_classification (s : ExporterState)
    (spans : List ReadableSpan) (buildOk rpcError : Bool)
    (h : jsFalsyStr s.projectId.awaited = false) :
    (exportSpans s spans buildOk rpcError).1
      = if s.traceServiceClient = none ∧ buildOk = false then
          ExportResult.failedNotRetryable
        else if rpcError then ExportResult.failedRetryable
        else ExportResult.success := by
  cases hc : s.traceServiceClient <;> cases buildOk <;> cases rpcError <;>
    simp [exportSpans, batchWriteSpans, h, hc]

/-- Witness for C4: a fresh exporter with a resolved project id, a
failing client construction — the call reports non-retryable failure. -/
theorem export_outcome_classification_witness :
    (exportSpans
        { projectId := ProjectIdState.resolved (some "pid")
          traceServiceClient := none } [] false false).1
      = ExportResult.failedNotRetryable := by
  rw [export_outcome_classification
    { projectId := ProjectIdState.resolved (some "pid")
      traceServiceClient := none } [] false false rfl]
  decide

/-- C5: when project-id resolution failed or yielded no id, the export
call reports non-retryable failure and constructs no request (so no
network call happens). -/
theorem no_project_id_no_network_call (s : ExporterState)
    (spans : List ReadableSpan) (buildOk rpcError : Bool)
    (h : jsFalsyStr s.projectId.awaited = true) :
    (exportSpans s spans buildOk rpcError).1
        = ExportResult.failedNotRetryable
    ∧ (exportSpans s spans buildOk rpcError).2.2 = none := by
  constructor <;> simp [exportSpans, h]

/-- Witness for C5: an exporter whose project-id resolution settled to
nothing reports non-retryable failure with no request built. -/
theorem no_project_id_no_network_call_witness :
    (exportSpans
        { projectId := ProjectIdState.resolved none
          traceServiceClient := none } [] true false).1
      = ExportResult.failedNotRetryable
    ∧ (exportSpans
        { projectId := ProjectIdState.resolved none
          traceServiceClient := none } [] true false).2.2 = none :=
  no_project_id_no_network_call
    { projectId := ProjectIdState.resolved none
      traceServiceClient := none } [] true false rfl

/-- C6: a failed client construction is not cached — the call reports
non-retryable failure, the client stays unset, and a later export call
on the same instance attempts construction again and can succeed —
whereas a failed project-id resolution is permanent: every member of
any sequence of subsequent export calls reports non-retryable failure
and the id stays unresolved. -/
theorem build_failure_transient_projectid_failure_permanent :
    (∀ (s : ExporterState) (spans spans2 : List ReadableSpan) (r : Bool),
      s.traceServiceClient = none →
      jsFalsyStr s.projectId.awaited = false →
      (exportSpans s spans false r).1 = ExportResult.failedNotRetryable
      ∧ (exportSpans s spans false r).2.1.traceServiceClient = none
      ∧ (exportSpans (exportSpans s spans false r).2.1 spans2
          true false).1 = ExportResult.success)
    ∧ (∀ (s : ExporterState) (calls : List ExportCall),
      s.projectId.awaited = none →
      (exportSeq s calls).2.projectId.awaited = none
      ∧ ∀ res ∈ (exportSeq s calls).1,
          res = ExportResult.failedNotRetryable) := by
  constructor
  · intro s spans spans2 r hc hp
    refine ⟨?_, ?_, ?_⟩
    · simp [exportSpans, batchWriteSpans, hp, hc]
    · simp [exportSpans, batchWriteSpans, hp, hc]
    · have hstate : (exportSpans s spans false r).2.1
          = { projectId := ProjectIdState.resolved s.projectId.awaited
              traceServiceClient := none } := by
        simp [exportSpans, batchWriteSpans, hp, hc]
      rw [hstate]
      have hp2 : jsFalsyStr
          (ProjectIdState.resolved s.projectId.awaited).awaited
            = false := hp
      simp [exportSpans, batchWriteSpans, hp2]
  · intro s calls hp
    induction calls generalizing s with
    | nil => exact ⟨hp, by intro res h; cases h⟩
    | cons c rest ih =>
      have hfalsy : jsFalsyStr s.projectId.awaited = true := by
        rw [hp]; rfl
      have hstate : (exportSpans s c.spans c.buildOk c.rpcError).2.1
          = { s with projectId := ProjectIdState.resolved none } := by
        simp [exportSpans, hfalsy, hp, jsFalsyStr]
      have hres : (exportSpans s c.spans c.buildOk c.rpcError).1
          = ExportResult.failedNotRetryable := by
        simp [exportSpans, hfalsy]
      have ihr := ih { s with projectId := ProjectIdState.resolved none }
        rfl
      constructor
      · show (exportSeq (exportSpans s c.spans c.buildOk c.rpcError).2.1
            rest).2.projectId.awaited = none
        rw [hstate]
        exact ihr.1
      · intro res hmem
        simp only [exportSeq] at hmem
        rcases List.mem_cons.1 hmem with h | h
        · rw [h]; exact hres
        · rw [hstate] at h
          exact ihr.2 res h

/-- Witness for C6: a failed construction leaves the client unset and
the permanence of a settled-empty project id over one further call. -/
theorem build_failure_transient_witness :
    ((exportSpans
        { projectId := ProjectIdState.resolved (some "pid")
          traceServiceClient := none } [] false false).2.1.traceServiceClient
      = none)
    ∧ (exportSeq
        { projectId := ProjectIdState.pending none
          traceServiceClient := none }
        [{ spans := [], buildOk := true, rpcError := false }]).2.projectId.awaited
      = none :=
  ⟨(build_failure_transient_projectid_failure_permanent.1
      { projectId := ProjectIdState.resolved (some "pid")
        traceServiceClient := none } [] [] false rfl rfl).2.1,
   (build_failure_transient_projectid_failure_permanent.2
      { projectId := ProjectIdState.pending none
        traceServiceClient := none }
      [{ spans := [], buildOk := true, rpcError := false }] rfl).1⟩

/-- C7 is false as stated: even for a span with no attributes, links or
events (and an empty resource), the map of the output Attributes message is
not empty — it always holds the injected `project_id` and agent
labels. -/
theorem empty_span_attributes_map_counterexample :
    ((getReadableSpanTransformer "p"
        { name := "s"
          spanContext := { traceId := "t", spanId := "i" }
          startTime := (0, 0), endTime := (0, 0)
          status := { code := 0 } }).attributes.map
      (fun a => a.attributeMap)) ≠ some [] := by
  decide

/-- C7 amended: for every span whose attributes, links and events are
empty, the transformer still emits present containers — a Links message
with an empty link list, a TimeEvents message with an empty timeEvent
list, and a present Attributes message holding the transform of the
service labels merged with the resource labels (the request
contribution being empty) — never an absent field. -/
theorem empty_collections_present_containers (projectId : String)
    (span : ReadableSpan) (h1 : span.attributes = [])
    (h2 : span.links = []) (h3 : span.events = []) :
    (getReadableSpanTransformer projectId span).links
        = some { link := [] }
    ∧ (getReadableSpanTransformer projectId span).timeEvents
        = some { timeEvent := [] }
    ∧ (getReadableSpanTransformer projectId span).attributes
        = some (transformAttributes [] (serviceAttributes projectId)
            span.resource) := by
  refine ⟨?_, ?_, ?_⟩ <;>
    simp [getReadableSpanTransformer, transformLinks,
      transformTimeEvents, h1, h2, h3]

/-- Witness for the amended C7 on a concrete empty span. -/
theorem empty_collections_present_containers_witness :
    (getReadableSpanTransformer "p"
        { name := "s"
          spanContext := { traceId := "t", spanId := "i" }
          startTime := (0, 0), endTime := (0, 0)
          status := { code := 0 } }).links = some { link := [] } :=
  (empty_collections_present_containers "p"
    { name := "s"
      spanContext := { traceId := "t", spanId := "i" }
      startTime := (0, 0), endTime := (0, 0)
      status := { code := 0 } } rfl rfl rfl).1

/-- C8: for a span whose remoteness flag is present,
`sameProcessAsParentSpan` is its logical negation — true iff the flag
is false. -/
theorem sameProcess_negates_isRemote (projectId : String)
    (span : ReadableSpan) (b : Bool)
    (h : span.spanContext.isRemote = some b) :
    (getReadableSpanTransformer projectId span).sameProcessAsParentSpan
        = some { value := !b }
    ∧ ((getReadableSpanTransformer projectId
          span).sameProcessAsParentSpan = some { value := true }
        ↔ b = false) := by
  constructor
  · simp [getReadableSpanTransformer, transformBool, jsNotOpt, h]
  · cases b <;>
      simp [getReadableSpanTransformer, transformBool, jsNotOpt, h]

/-- Witness for C8: a remote span maps to `sameProcessAsParentSpan`
false. -/
theorem sameProcess_negates_isRemote_witness :
    (getReadableSpanTransformer "p"
        { name := "s"
          spanContext := { traceId := "t", spanId := "i"
                           isRemote := some true }
          startTime := (0, 0), endTime := (0, 0)
          status := { code := 0 } }).sameProcessAsParentSpan
      = some { value := false } :=
  (sameProcess_negates_isRemote "p"
    { name := "s"
      spanContext := { traceId := "t", spanId := "i"
                       isRemote := some true }
      startTime := (0, 0), endTime := (0, 0)
      status := { code := 0 } } true rfl).1

/-- C9: a numeric attribute value is stored as `intValue` rounded to a
nearest integer (no other integer is closer), not truncated. -/
theorem numeric_attributes_round_nearest (attrs : JsObj) (q : String)
    (x : Rat) (h : attrs.lookup q = some (JsValue.num x)) :
    (transformAttributeValues attrs).lookup q
        = some { intValue := some (jsMathRound x) }
    ∧ ∀ z : Int, |(jsMathRound x : Rat) - x| ≤ |(z : Rat) - x| := by
  constructor
  · have hl := lookup_transformAttributeValues attrs q (JsValue.num x)
      h rfl
    simpa [valueToAttributeValue] using hl
  · intro z
    have hr : jsMathRound x = round x := (round_eq x).symm
    rw [hr]
    calc |(round x : Rat) - x| = |x - round x| := abs_sub_comm _ _
      _ ≤ |x - z| := round_le x z
      _ = |(z : Rat) - x| := abs_sub_comm _ _

/-- Witness for C9: the attribute value 112.12 (written 2803/25) is
stored as the integer 112. -/
theorem numeric_attributes_round_nearest_witness :
    (transformAttributeValues
        [("cost", JsValue.num (2803 / 25 : Rat))]).lookup "cost"
      = some { intValue := some 112 } := by
  have h := (numeric_attributes_round_nearest
    [("cost", JsValue.num (2803 / 25 : Rat))] "cost" (2803 / 25 : Rat)
    (by simp [lookup_cons])).1
  rw [h]
  have hfloor : jsMathRound (2803 / 25 : Rat) = 112 := by
    unfold jsMathRound
    rw [Int.floor_eq_iff]
    constructor <;> norm_num
  rw [hfloor]

/-- C10: a span whose context carries no remoteness flag at all maps to
`sameProcessAsParentSpan` true, as a local span would. -/
theorem absent_isRemote_sameProcess_true (projectId : String)
    (span : ReadableSpan) (h : span.spanContext.isRemote = none) :
    (getReadableSpanTransformer projectId span).sameProcessAsParentSpan
      = some { value := true } := by
  simp [getReadableSpanTransformer, transformBool, jsNotOpt, h]

/-- Witness for C10 on a concrete span with no remoteness flag. -/
theorem absent_isRemote_sameProcess_true_witness :
    (getReadableSpanTransformer "p"
        { name := "s"
          spanContext := { traceId := "t", spanId := "i" }
          startTime := (0, 0), endTime := (0, 0)
          status := { code := 0 } }).sameProcessAsParentSpan
      = some { value := true } :=
  absent_isRemote_sameProcess_true "p"
    { name := "s"
      spanContext := { traceId := "t", spanId := "i" }
      startTime := (0, 0), endTime := (0, 0)
      status := { code := 0 } } rfl

end GCTrace
